import Mathlib

/-!
Shallow embedding of `src/server.js` (futbol-app): an Express + Postgres
CRUD service for soccer matches with child tables for goals and cards.

The source file contains two variants of the whole server separated by a
document marker; variant 1 (lines 1-269) is embedded first, variant 2
(lines 270-544) is embedded with a `2` suffix on every name for the
equivalence claim.

JavaScript payload values are modelled by `JPrim` (scalars, with JS
truthiness) and `JList` (array-valued fields, distinguishing absent/falsy,
truthy-non-array, and actual arrays).  Postgres is modelled by explicit
row lists with the schema constraints of `ensureSchema` (NOT NULL, CHECK,
FOREIGN KEY with ON DELETE CASCADE) checked on each write; a transaction
is an `Except` computation whose error case leaves the input state
untouched (BEGIN/ROLLBACK semantics).
-/

/-- A JSON scalar value of a payload field.  `absent` stands for a missing
key or `undefined`/`null` (all behave alike for the checks below). -/
inductive JPrim where
  | absent
  | str (s : String)
  | num (n : Int)
  | bool (b : Bool)
deriving DecidableEq

/-- JavaScript truthiness of a scalar: `!p[k]` in the source. -/
def truthy : JPrim → Bool
  | JPrim.absent => false
  | JPrim.str s => !(s == "")
  | JPrim.num n => !(n == 0)
  | JPrim.bool b => b

/-- How node-postgres serialises a scalar for a TEXT column; `none` is SQL
NULL (rejected by the NOT NULL constraints). -/
def toText : JPrim → Option String
  | JPrim.absent => none
  | JPrim.str s => some s
  | JPrim.num n => some (toString n)
  | JPrim.bool b => some (if b then "true" else "false")

/-- An array-valued payload field (`goles` / `tarjetas`).  `absent` covers
every falsy value (skipped by `p.goles && !Array.isArray(p.goles)` and
turned into `[]` by `p.goles || []`); `nonArray` is a truthy non-array
value. -/
inductive JList (α : Type) where
  | absent
  | nonArray
  | arr (xs : List α)
deriving DecidableEq

/-- `p.goles || []` for an array-valued field. -/
def jarr {α : Type} : JList α → List α
  | JList.arr xs => xs
  | _ => []

/-- `p.goles && !Array.isArray(p.goles)`: truthy but not an array. -/
def isNonArray {α : Type} : JList α → Bool
  | JList.nonArray => true
  | _ => false

/-- A goal entry of the request payload. -/
structure GoalIn where
  team : JPrim
  jugador : JPrim
  minuto : Option Int
  penalty : Option Bool
  own_goal : Option Bool
deriving DecidableEq

/-- A card entry of the request payload. -/
structure CardIn where
  team : JPrim
  jugador : JPrim
  minuto : Option Int
  tipo : JPrim
deriving DecidableEq

/-- The request body of POST/PUT `/api/matches`. -/
structure MatchPayload where
  equipo_local : JPrim
  equipo_visitante : JPrim
  cancha : JPrim
  fecha : JPrim
  hora : JPrim
  goles_favor_loc : Option Int
  goles_favor_vis : Option Int
  goles : JList GoalIn
  tarjetas : JList CardIn
deriving DecidableEq

/-- The `required` array of `validateMatch`. -/
def requiredFields : List String :=
  ["equipo_local", "equipo_visitante", "cancha", "fecha", "hora"]

/-- Dynamic field access `p?.[k]` for the required scalar fields. -/
def getReq (p : MatchPayload) (k : String) : JPrim :=
  if k = "equipo_local" then p.equipo_local
  else if k = "equipo_visitante" then p.equipo_visitante
  else if k = "cancha" then p.cancha
  else if k = "fecha" then p.fecha
  else if k = "hora" then p.hora
  else JPrim.absent

/-- `okTeam` of the source: `t === "local" || t === "visitante"`. -/
def okTeam (t : JPrim) : Bool :=
  t == JPrim.str "local" || t == JPrim.str "visitante"

/-- `["amarilla","roja"].includes(c.tipo)`. -/
def okTipo (t : JPrim) : Bool :=
  t == JPrim.str "amarilla" || t == JPrim.str "roja"

/-- `x < 0` under JS comparison for a field that is a number or absent
(`undefined < 0` is `false`). -/
def jsNeg : Option Int → Bool
  | some n => decide (n < 0)
  | none => false

/-- `!!x` for an optional boolean payload field. -/
def jsBool (o : Option Bool) : Bool := o.getD false

/-- Body of the goal loop of `validateMatch` (first violated check of one
entry of `p.goles`). -/
def validateGoalEntry (g : GoalIn) : Option String :=
  if !okTeam g.team then some "team inválido en goles"
  else if !truthy g.jugador then some "jugador requerido en goles"
  else match g.minuto with
    | none => some "minuto inválido en goles"
    | some m => if m < 0 then some "minuto inválido en goles" else none

/-- Body of the card loop of `validateMatch`. -/
def validateCardEntry (c : CardIn) : Option String :=
  if !okTeam c.team then some "team inválido en tarjetas"
  else if !truthy c.jugador then some "jugador requerido en tarjetas"
  else match c.minuto with
    | none => some "minuto inválido en tarjetas"
    | some m =>
      if m < 0 then some "minuto inválido en tarjetas"
      else if !okTipo c.tipo then some "tipo inválido en tarjetas"
      else none

/-- `validateMatch` of `src/server.js` lines 104-123: first violation as a
message, or `none`. -/
def validateMatch (p : MatchPayload) : Option String :=
  match requiredFields.find? (fun k => !truthy (getReq p k)) with
  | some k => some ("Falta: " ++ k)
  | none =>
    if jsNeg p.goles_favor_loc || jsNeg p.goles_favor_vis then
      some "Goles no pueden ser negativos"
    else if isNonArray p.goles then some "goles debe ser array"
    else if isNonArray p.tarjetas then some "tarjetas debe ser array"
    else match (jarr p.goles).findSome? validateGoalEntry with
      | some e => some e
      | none => (jarr p.tarjetas).findSome? validateCardEntry

/-- A row of the `matches` table (`ensureSchema`). -/
structure MatchRow where
  id : Nat
  equipo_local : String
  equipo_visitante : String
  goles_favor_loc : Int
  goles_favor_vis : Int
  cancha : String
  fecha : String
  hora : String
  created_at : Nat
deriving DecidableEq

/-- A row of the `goals` table. -/
structure GoalRow where
  id : Nat
  match_id : Nat
  team : String
  jugador : String
  minuto : Int
  penalty : Bool
  own_goal : Bool
deriving DecidableEq

/-- A row of the `cards` table. -/
structure CardRow where
  id : Nat
  match_id : Nat
  team : String
  jugador : String
  minuto : Int
  tipo : String
deriving DecidableEq

/-- The database: the three tables, the three SERIAL counters and the
clock used for the `created_at` default (`now()`). -/
structure DB where
  matchesTable : List MatchRow
  goals : List GoalRow
  cards : List CardRow
  nextMatchId : Nat
  nextGoalId : Nat
  nextCardId : Nat
  now : Nat
deriving DecidableEq

/-- Well-formedness maintained by Postgres: SERIAL ids of stored rows are
below the counters and the foreign keys of `goals`/`cards` reference
existing matches. -/
def WF (db : DB) : Prop :=
  (∀ m ∈ db.matchesTable, m.id < db.nextMatchId) ∧
  (∀ g ∈ db.goals, ∃ m ∈ db.matchesTable, g.match_id = m.id) ∧
  (∀ c ∈ db.cards, ∃ m ∈ db.matchesTable, c.match_id = m.id)

/-! Deterministic model of SQL `ORDER BY` (insertion sort by a boolean
"less or equal" test; the order keys below are total, so the result is
the unique sorted arrangement). -/

/-- Insert `a` in front of the first element it precedes. -/
def ordIns {α : Type} (le : α → α → Bool) (a : α) : List α → List α
  | [] => [a]
  | b :: l => if le a b then a :: b :: l else b :: ordIns le a l

/-- Sort a table by the boolean order `le`. -/
def sortBy {α : Type} (le : α → α → Bool) : List α → List α
  | [] => []
  | b :: l => ordIns le b (sortBy le l)

/-- `ORDER BY minuto, id` on `goals`/`cards` rows (selector form). -/
def byMinutoId {α : Type} (minuto : α → Int) (rowId : α → Nat)
    (a b : α) : Bool :=
  decide (minuto a < minuto b) ||
    (minuto a == minuto b && decide (rowId a ≤ rowId b))

/-- `ORDER BY fecha DESC, hora DESC, id DESC` of the list endpoint. -/
def matchDescLe (a b : MatchRow) : Bool :=
  if a.fecha = b.fecha then
    (if a.hora = b.hora then decide (b.id ≤ a.id) else decide (b.hora < a.hora))
  else decide (b.fecha < a.fecha)

/-- `mapMatch` of the source: the eight public columns of a match row
(`created_at` is not exposed). -/
structure MatchOut where
  id : Nat
  equipo_local : String
  equipo_visitante : String
  goles_favor_loc : Int
  goles_favor_vis : Int
  cancha : String
  fecha : String
  hora : String
deriving DecidableEq

def mapMatch (row : MatchRow) : MatchOut :=
  { id := row.id, equipo_local := row.equipo_local,
    equipo_visitante := row.equipo_visitante,
    goles_favor_loc := row.goles_favor_loc,
    goles_favor_vis := row.goles_favor_vis,
    cancha := row.cancha, fecha := row.fecha, hora := row.hora }

/-- One goal of a detailed response (`fetchDetails`). -/
structure GoalOut where
  id : Nat
  team : String
  jugador : String
  minuto : Int
  penalty : Bool
  own_goal : Bool
deriving DecidableEq

/-- One card of a detailed response. -/
structure CardOut where
  id : Nat
  team : String
  jugador : String
  minuto : Int
  tipo : String
deriving DecidableEq

/-- `{...mapMatch(match), goles, tarjetas}` of GET-one/POST/PUT. -/
structure MatchDetail where
  base : MatchOut
  goles : List GoalOut
  tarjetas : List CardOut
deriving DecidableEq

/-- The `_counts` object of a list entry. -/
structure Counts where
  goles : Nat
  tarjetas : Nat
deriving DecidableEq

/-- One entry of the GET `/api/matches` response: summary plus empty
`goles`/`tarjetas` placeholders plus `_counts`. -/
structure ListEntry where
  base : MatchOut
  goles : List GoalOut
  tarjetas : List CardOut
  counts : Counts
deriving DecidableEq

/-- The HTTP outcome of a handler.  `badRequest` carries the validation
message; `notFound` is the `{error:"not_found"}` 404; `serverError` is the
generic 500 of the error middleware. -/
inductive Resp (β : Type) where
  | ok (body : β)
  | created (body : β)
  | badRequest (msg : String)
  | notFound
  | serverError
deriving DecidableEq

/-- The row-to-response projection of `fetchDetails` for goals
(`penalty`/`own_goal` pass through `!!`, the identity on booleans). -/
def goalRowOut (g : GoalRow) : GoalOut :=
  { id := g.id, team := g.team, jugador := g.jugador, minuto := g.minuto,
    penalty := g.penalty, own_goal := g.own_goal }

/-- The row-to-response projection of `fetchDetails` for cards. -/
def cardRowOut (c : CardRow) : CardOut :=
  { id := c.id, team := c.team, jugador := c.jugador, minuto := c.minuto,
    tipo := c.tipo }

/-- `fetchDetails`, goals half: rows of the match ordered by minute then
id, projected to the response shape. -/
def fetchGoals (db : DB) (mid : Nat) : List GoalOut :=
  (sortBy (byMinutoId GoalRow.minuto GoalRow.id)
      (db.goals.filter (fun g => g.match_id == mid))).map goalRowOut

/-- `fetchDetails`, cards half. -/
def fetchCards (db : DB) (mid : Nat) : List CardOut :=
  (sortBy (byMinutoId CardRow.minuto CardRow.id)
      (db.cards.filter (fun c => c.match_id == mid))).map cardRowOut

/-! Writes, with the schema constraints of `ensureSchema` enforced the way
Postgres enforces them (a violated constraint makes the statement fail). -/

/-- Constraints of one `INSERT INTO goals` statement: the FK to `matches`,
NOT NULL on team/jugador/minuto, and the CHECK on team. -/
def goalInsertOk (db : DB) (mid : Nat) (g : GoalIn) : Bool :=
  db.matchesTable.any (fun m => m.id == mid) &&
  (toText g.team).isSome && (toText g.jugador).isSome && g.minuto.isSome &&
  ((toText g.team).getD "" == "local" || (toText g.team).getD "" == "visitante")

/-- The stored row of a successful goal insert. -/
def mkGoalRow (gid mid : Nat) (g : GoalIn) : GoalRow :=
  { id := gid, match_id := mid, team := (toText g.team).getD "",
    jugador := (toText g.jugador).getD "", minuto := g.minuto.getD 0,
    penalty := jsBool g.penalty, own_goal := jsBool g.own_goal }

def insertGoal (db : DB) (mid : Nat) (g : GoalIn) : Except String DB :=
  if goalInsertOk db mid g then
    Except.ok { db with goals := db.goals ++ [mkGoalRow db.nextGoalId mid g],
                        nextGoalId := db.nextGoalId + 1 }
  else Except.error "goals_insert_failed"

/-- Constraints of one `INSERT INTO cards` statement. -/
def cardInsertOk (db : DB) (mid : Nat) (c : CardIn) : Bool :=
  db.matchesTable.any (fun m => m.id == mid) &&
  (toText c.team).isSome && (toText c.jugador).isSome && c.minuto.isSome &&
  ((toText c.team).getD "" == "local" || (toText c.team).getD "" == "visitante") &&
  (toText c.tipo).isSome &&
  ((toText c.tipo).getD "" == "amarilla" || (toText c.tipo).getD "" == "roja")

def mkCardRow (cid mid : Nat) (c : CardIn) : CardRow :=
  { id := cid, match_id := mid, team := (toText c.team).getD "",
    jugador := (toText c.jugador).getD "", minuto := c.minuto.getD 0,
    tipo := (toText c.tipo).getD "" }

def insertCard (db : DB) (mid : Nat) (c : CardIn) : Except String DB :=
  if cardInsertOk db mid c then
    Except.ok { db with cards := db.cards ++ [mkCardRow db.nextCardId mid c],
                        nextCardId := db.nextCardId + 1 }
  else Except.error "cards_insert_failed"

/-- The `for (const g of req.body.goles || [])` insert loop. -/
def insertGoals (db : DB) (mid : Nat) : List GoalIn → Except String DB
  | [] => Except.ok db
  | g :: gs =>
    match insertGoal db mid g with
    | Except.error e => Except.error e
    | Except.ok db1 => insertGoals db1 mid gs

/-- The card insert loop. -/
def insertCards (db : DB) (mid : Nat) : List CardIn → Except String DB
  | [] => Except.ok db
  | c :: cs =>
    match insertCard db mid c with
    | Except.error e => Except.error e
    | Except.ok db1 => insertCards db1 mid cs

/-- The rows a successful run of the goal insert loop appends, with their
SERIAL ids starting at `gid`. -/
def mkGoalRows (gid mid : Nat) : List GoalIn → List GoalRow
  | [] => []
  | g :: gs => mkGoalRow gid mid g :: mkGoalRows (gid + 1) mid gs

/-- The rows a successful run of the card insert loop appends. -/
def mkCardRows (cid mid : Nat) : List CardIn → List CardRow
  | [] => []
  | c :: cs => mkCardRow cid mid c :: mkCardRows (cid + 1) mid cs

/-- The match row created by the POST insert (tallies default with
`?? 0`, `created_at` defaults to `now()`). -/
def mkMatchRow (db : DB) (a b c f h : String) (p : MatchPayload) : MatchRow :=
  { id := db.nextMatchId, equipo_local := a, equipo_visitante := b,
    goles_favor_loc := p.goles_favor_loc.getD 0,
    goles_favor_vis := p.goles_favor_vis.getD 0,
    cancha := c, fecha := f, hora := h, created_at := db.now }

/-- `INSERT INTO matches ... RETURNING id` (NOT NULL on the five text
columns). -/
def insertMatch (db : DB) (p : MatchPayload) : Except String (DB × Nat) :=
  match toText p.equipo_local, toText p.equipo_visitante, toText p.cancha,
        toText p.fecha, toText p.hora with
  | some a, some b, some c, some f, some h =>
    Except.ok
      ({ db with matchesTable := db.matchesTable ++ [mkMatchRow db a b c f h p],
                 nextMatchId := db.nextMatchId + 1 }, db.nextMatchId)
  | _, _, _, _, _ => Except.error "matches_insert_failed"

/-- The `UPDATE matches SET ... WHERE id=$8` statement of PUT: mutates the
matching rows wholesale; a NULL for a NOT NULL column only fails when a
row is actually affected. -/
def putMatchUpdate (db : DB) (id : Nat) (p : MatchPayload) : Except String DB :=
  match toText p.equipo_local, toText p.equipo_visitante, toText p.cancha,
        toText p.fecha, toText p.hora with
  | some a, some b, some c, some f, some h =>
    Except.ok
      { db with matchesTable := db.matchesTable.map (fun m =>
          if m.id = id then
            { m with equipo_local := a, equipo_visitante := b,
                     goles_favor_loc := p.goles_favor_loc.getD 0,
                     goles_favor_vis := p.goles_favor_vis.getD 0,
                     cancha := c, fecha := f, hora := h }
          else m) }
  | _, _, _, _, _ =>
    if db.matchesTable.any (fun m => m.id == id) then
      Except.error "matches_update_failed"
    else Except.ok db

/-- The statements between BEGIN and COMMIT of the POST handler. -/
def txnPost (db : DB) (p : MatchPayload) : Except String (DB × Nat) :=
  match insertMatch db p with
  | Except.error e => Except.error e
  | Except.ok (db1, id) =>
    match insertGoals db1 id (jarr p.goles) with
    | Except.error e => Except.error e
    | Except.ok db2 =>
      match insertCards db2 id (jarr p.tarjetas) with
      | Except.error e => Except.error e
      | Except.ok db3 => Except.ok (db3, id)

/-- The statements between BEGIN and COMMIT of the PUT handler: update the
row, delete the children, reinsert the payload's children. -/
def txnPut (db : DB) (id : Nat) (p : MatchPayload) : Except String DB :=
  match putMatchUpdate db id p with
  | Except.error e => Except.error e
  | Except.ok db1 =>
    match insertGoals
        { db1 with goals := db1.goals.filter (fun g => !(g.match_id == id)),
                   cards := db1.cards.filter (fun c => !(c.match_id == id)) }
        id (jarr p.goles) with
    | Except.error e => Except.error e
    | Except.ok db3 => insertCards db3 id (jarr p.tarjetas)

/-! The five route handlers.  Read-only handlers return just the response;
writers return the database after the request together with the response
(a transaction error rolls every statement back, so the original state is
returned there). -/

/-- One entry of the list response. -/
def listEntry (db : DB) (r : MatchRow) : ListEntry :=
  { base := mapMatch r, goles := [], tarjetas := [],
    counts :=
      { goles := (db.goals.filter (fun g => g.match_id == r.id)).length,
        tarjetas := (db.cards.filter (fun c => c.match_id == r.id)).length } }

/-- The body of GET `/api/matches`. -/
def listBody (db : DB) : List ListEntry :=
  (sortBy matchDescLe db.matchesTable).map (listEntry db)

/-- GET `/api/matches`. -/
def listHandler (db : DB) : Resp (List ListEntry) :=
  Resp.ok (listBody db)

/-- GET `/api/matches/:id`. -/
def getOneHandler (db : DB) (id : Nat) : Resp MatchDetail :=
  match db.matchesTable.find? (fun m => m.id == id) with
  | none => Resp.notFound
  | some row =>
    Resp.ok { base := mapMatch row, goles := fetchGoals db id,
              tarjetas := fetchCards db id }

/-- POST `/api/matches`.  After COMMIT the handler re-reads the row; if
that read found nothing, `mapMatch(rows[0])` would throw and surface as a
500 through the error middleware (the committed state is kept — the
`ROLLBACK` issued by the catch block is outside any open transaction). -/
def postHandler (db : DB) (p : MatchPayload) : DB × Resp MatchDetail :=
  match validateMatch p with
  | some e => (db, Resp.badRequest e)
  | none =>
    match txnPost db p with
    | Except.error _ => (db, Resp.serverError)
    | Except.ok (db1, id) =>
      match db1.matchesTable.find? (fun m => m.id == id) with
      | none => (db1, Resp.serverError)
      | some row =>
        (db1, Resp.created { base := mapMatch row, goles := fetchGoals db1 id,
                             tarjetas := fetchCards db1 id })

/-- PUT `/api/matches/:id`.  Note there is no 404 branch: an absent id
either makes a child insert violate its foreign key (rollback, 500) or
commits a no-op update and then fails re-reading the row (500). -/
def putHandler (db : DB) (id : Nat) (p : MatchPayload) : DB × Resp MatchDetail :=
  match validateMatch p with
  | some e => (db, Resp.badRequest e)
  | none =>
    match txnPut db id p with
    | Except.error _ => (db, Resp.serverError)
    | Except.ok db1 =>
      match db1.matchesTable.find? (fun m => m.id == id) with
      | none => (db1, Resp.serverError)
      | some row =>
        (db1, Resp.ok { base := mapMatch row, goles := fetchGoals db1 id,
                        tarjetas := fetchCards db1 id })

/-- The match rows a `DELETE ... WHERE id=$1` statement hits (their count
is the reported `rowCount`). -/
def matchedRows (db : DB) (id : Nat) : List MatchRow :=
  db.matchesTable.filter (fun m => m.id == id)

/-- The database after the DELETE statement: the hit rows go, and
ON DELETE CASCADE removes every goal/card row owned by a deleted row. -/
def dbAfterDelete (db : DB) (id : Nat) : DB :=
  { db with
    matchesTable := db.matchesTable.filter (fun m => !(m.id == id)),
    goals := db.goals.filter
      (fun g => !((matchedRows db id).any (fun m => m.id == g.match_id))),
    cards := db.cards.filter
      (fun c => !((matchedRows db id).any (fun m => m.id == c.match_id))) }

/-- DELETE `/api/matches/:id`: run the delete, then 404 when the reported
row count is zero. -/
def deleteHandler (db : DB) (id : Nat) : DB × Resp Unit :=
  if (matchedRows db id).length == 0 then (dbAfterDelete db id, Resp.notFound)
  else (dbAfterDelete db id, Resp.ok ())

/-! Spec-side restatement of the validator (section 4.1 of the spec) used
for the order-of-checks claim: an explicit ordered list of checks whose
first violation is returned.  Compared against `validateMatch` (which was
translated from the source) in the corresponding theorem. -/

/-- First violation of an ordered check list. -/
def firstErr (l : List (Option String)) : Option String :=
  l.findSome? id

/-- Present-and-non-negative minute. -/
def minOk : Option Int → Bool
  | some m => decide (0 ≤ m)
  | none => false

/-- Spec: "presence of all five required scalar fields" (in order). -/
def checkRequiredSpec (p : MatchPayload) : Option String :=
  firstErr
    [ if truthy p.equipo_local then none else some "Falta: equipo_local",
      if truthy p.equipo_visitante then none else some "Falta: equipo_visitante",
      if truthy p.cancha then none else some "Falta: cancha",
      if truthy p.fecha then none else some "Falta: fecha",
      if truthy p.hora then none else some "Falta: hora" ]

/-- Spec: "non-negative score tallies". -/
def checkScoresSpec (p : MatchPayload) : Option String :=
  if jsNeg p.goles_favor_loc || jsNeg p.goles_favor_vis then
    some "Goles no pueden ser negativos"
  else none

/-- Spec: "if present, goals/cards must be list-shaped". -/
def checkArraysSpec (p : MatchPayload) : Option String :=
  firstErr
    [ if isNonArray p.goles then some "goles debe ser array" else none,
      if isNonArray p.tarjetas then some "tarjetas debe ser array" else none ]

/-- Spec: each goal entry has "a valid side, a non-empty player name, and
a non-negative minute". -/
def goalEntrySpec (g : GoalIn) : Option String :=
  firstErr
    [ if okTeam g.team then none else some "team inválido en goles",
      if truthy g.jugador then none else some "jugador requerido en goles",
      if minOk g.minuto then none else some "minuto inválido en goles" ]

/-- Spec: each card entry additionally has "a valid type". -/
def cardEntrySpec (c : CardIn) : Option String :=
  firstErr
    [ if okTeam c.team then none else some "team inválido en tarjetas",
      if truthy c.jugador then none else some "jugador requerido en tarjetas",
      if minOk c.minuto then none else some "minuto inválido en tarjetas",
      if okTipo c.tipo then none else some "tipo inválido en tarjetas" ]

/-- The validator as the spec words it: the checks in the stated order,
returning the first violation. -/
def validateMatchSpec (p : MatchPayload) : Option String :=
  firstErr
    [ checkRequiredSpec p,
      checkScoresSpec p,
      checkArraysSpec p,
      (jarr p.goles).findSome? goalEntrySpec,
      (jarr p.tarjetas).findSome? cardEntrySpec ]

/-! Variant 2 of the server (`src/server.js` lines 270-544, after the
document marker): the same schema, validator, helpers and routes.  Each
source function is embedded again, suffixed `2`. -/

/-- `validateMatch` variant 2, goal loop body (lines 346-350). -/
def validateGoalEntry2 (g : GoalIn) : Option String :=
  if !okTeam g.team then some "team inválido en goles"
  else if !truthy g.jugador then some "jugador requerido en goles"
  else match g.minuto with
    | none => some "minuto inválido en goles"
    | some m => if m < 0 then some "minuto inválido en goles" else none

/-- `validateMatch` variant 2, card loop body (lines 351-356). -/
def validateCardEntry2 (c : CardIn) : Option String :=
  if !okTeam c.team then some "team inválido en tarjetas"
  else if !truthy c.jugador then some "jugador requerido en tarjetas"
  else match c.minuto with
    | none => some "minuto inválido en tarjetas"
    | some m =>
      if m < 0 then some "minuto inválido en tarjetas"
      else if !okTipo c.tipo then some "tipo inválido en tarjetas"
      else none

/-- `validateMatch` of variant 2 (lines 339-358). -/
def validateMatch2 (p : MatchPayload) : Option String :=
  match requiredFields.find? (fun k => !truthy (getReq p k)) with
  | some k => some ("Falta: " ++ k)
  | none =>
    if jsNeg p.goles_favor_loc || jsNeg p.goles_favor_vis then
      some "Goles no pueden ser negativos"
    else if isNonArray p.goles then some "goles debe ser array"
    else if isNonArray p.tarjetas then some "tarjetas debe ser array"
    else match (jarr p.goles).findSome? validateGoalEntry2 with
      | some e => some e
      | none => (jarr p.tarjetas).findSome? validateCardEntry2

/-- `mapMatch` of variant 2 (lines 326-337). -/
def mapMatch2 (row : MatchRow) : MatchOut :=
  { id := row.id, equipo_local := row.equipo_local,
    equipo_visitante := row.equipo_visitante,
    goles_favor_loc := row.goles_favor_loc,
    goles_favor_vis := row.goles_favor_vis,
    cancha := row.cancha, fecha := row.fecha, hora := row.hora }

/-- `fetchDetails` of variant 2, goals half (lines 360-367). -/
def fetchGoals2 (db : DB) (mid : Nat) : List GoalOut :=
  (sortBy (byMinutoId GoalRow.minuto GoalRow.id)
      (db.goals.filter (fun g => g.match_id == mid))).map goalRowOut

/-- `fetchDetails` of variant 2, cards half (lines 368-373). -/
def fetchCards2 (db : DB) (mid : Nat) : List CardOut :=
  (sortBy (byMinutoId CardRow.minuto CardRow.id)
      (db.cards.filter (fun c => c.match_id == mid))).map cardRowOut

/-- POST transaction of variant 2 (lines 424-454; the SQL statements are
the same text as variant 1's, so the statement models are shared). -/
def txnPost2 (db : DB) (p : MatchPayload) : Except String (DB × Nat) :=
  match insertMatch db p with
  | Except.error e => Except.error e
  | Except.ok (db1, id) =>
    match insertGoals db1 id (jarr p.goles) with
    | Except.error e => Except.error e
    | Except.ok db2 =>
      match insertCards db2 id (jarr p.tarjetas) with
      | Except.error e => Except.error e
      | Except.ok db3 => Except.ok (db3, id)

/-- PUT transaction of variant 2 (lines 477-507). -/
def txnPut2 (db : DB) (id : Nat) (p : MatchPayload) : Except String DB :=
  match putMatchUpdate db id p with
  | Except.error e => Except.error e
  | Except.ok db1 =>
    match insertGoals
        { db1 with goals := db1.goals.filter (fun g => !(g.match_id == id)),
                   cards := db1.cards.filter (fun c => !(c.match_id == id)) }
        id (jarr p.goles) with
    | Except.error e => Except.error e
    | Except.ok db3 => insertCards db3 id (jarr p.tarjetas)

/-- List entry of variant 2 (lines 396-399). -/
def listEntry2 (db : DB) (r : MatchRow) : ListEntry :=
  { base := mapMatch2 r, goles := [], tarjetas := [],
    counts :=
      { goles := (db.goals.filter (fun g => g.match_id == r.id)).length,
        tarjetas := (db.cards.filter (fun c => c.match_id == r.id)).length } }

/-- Body of GET `/api/matches` of variant 2. -/
def listBody2 (db : DB) : List ListEntry :=
  (sortBy matchDescLe db.matchesTable).map (listEntry2 db)

/-- GET `/api/matches` of variant 2 (lines 390-403). -/
def listHandler2 (db : DB) : Resp (List ListEntry) :=
  Resp.ok (listBody2 db)

/-- GET `/api/matches/:id` of variant 2 (lines 406-414). -/
def getOneHandler2 (db : DB) (id : Nat) : Resp MatchDetail :=
  match db.matchesTable.find? (fun m => m.id == id) with
  | none => Resp.notFound
  | some row =>
    Resp.ok { base := mapMatch2 row, goles := fetchGoals2 db id,
              tarjetas := fetchCards2 db id }

/-- POST `/api/matches` of variant 2 (lines 417-466). -/
def postHandler2 (db : DB) (p : MatchPayload) : DB × Resp MatchDetail :=
  match validateMatch2 p with
  | some e => (db, Resp.badRequest e)
  | none =>
    match txnPost2 db p with
    | Except.error _ => (db, Resp.serverError)
    | Except.ok (db1, id) =>
      match db1.matchesTable.find? (fun m => m.id == id) with
      | none => (db1, Resp.serverError)
      | some row =>
        (db1, Resp.created { base := mapMatch2 row, goles := fetchGoals2 db1 id,
                             tarjetas := fetchCards2 db1 id })

/-- PUT `/api/matches/:id` of variant 2 (lines 469-519). -/
def putHandler2 (db : DB) (id : Nat) (p : MatchPayload) : DB × Resp MatchDetail :=
  match validateMatch2 p with
  | some e => (db, Resp.badRequest e)
  | none =>
    match txnPut2 db id p with
    | Except.error _ => (db, Resp.serverError)
    | Except.ok db1 =>
      match db1.matchesTable.find? (fun m => m.id == id) with
      | none => (db1, Resp.serverError)
      | some row =>
        (db1, Resp.ok { base := mapMatch2 row, goles := fetchGoals2 db1 id,
                        tarjetas := fetchCards2 db1 id })

/-- DELETE `/api/matches/:id` of variant 2 (lines 522-529; the DELETE
statement text is the same, so its model `dbAfterDelete` is shared). -/
def deleteHandler2 (db : DB) (id : Nat) : DB × Resp Unit :=
  if (matchedRows db id).length == 0 then (dbAfterDelete db id, Resp.notFound)
  else (dbAfterDelete db id, Resp.ok ())

/-! Projections used to compare stored/returned entries with payload
entries while ignoring generated ids. -/

/-- A returned goal without its generated id. -/
def stripGoal (g : GoalOut) : String × String × Int × Bool × Bool :=
  (g.team, g.jugador, g.minuto, g.penalty, g.own_goal)

/-- The stored form of a payload goal entry (ignoring the id). -/
def goalView (g : GoalIn) : String × String × Int × Bool × Bool :=
  ((toText g.team).getD "", (toText g.jugador).getD "", g.minuto.getD 0,
   jsBool g.penalty, jsBool g.own_goal)

/-- A returned card without its generated id. -/
def stripCard (c : CardOut) : String × String × Int × String :=
  (c.team, c.jugador, c.minuto, c.tipo)

/-- The stored form of a payload card entry (ignoring the id). -/
def cardView (c : CardIn) : String × String × Int × String :=
  ((toText c.team).getD "", (toText c.jugador).getD "", c.minuto.getD 0,
   (toText c.tipo).getD "")

/-- The database after a successful POST transaction of a payload with
text scalars `a b c f h` and child lists `gs`/`cs`. -/
def dbPost (db : DB) (p : MatchPayload) (a b c f h : String)
    (gs : List GoalIn) (cs : List CardIn) : DB :=
  { matchesTable := db.matchesTable ++ [mkMatchRow db a b c f h p],
    goals := db.goals ++ mkGoalRows db.nextGoalId db.nextMatchId gs,
    cards := db.cards ++ mkCardRows db.nextCardId db.nextMatchId cs,
    nextMatchId := db.nextMatchId + 1,
    nextGoalId := db.nextGoalId + gs.length,
    nextCardId := db.nextCardId + cs.length,
    now := db.now }

/-! Concrete fixtures used by witnesses and counterexamples. -/

/-- A fresh database (SERIAL counters at 1, empty tables). -/
def dbEmpty : DB :=
  { matchesTable := [], goals := [], cards := [],
    nextMatchId := 1, nextGoalId := 1, nextCardId := 1, now := 0 }

/-- The concrete payload of the spec's scenario:
`{equipo_local:"A",equipo_visitante:"B",cancha:"X",fecha:"2024-01-01",
hora:"10:00",goles:[{team:"local",jugador:"P1",minuto:10}]}`. -/
def payloadScenario : MatchPayload :=
  { equipo_local := JPrim.str "A", equipo_visitante := JPrim.str "B",
    cancha := JPrim.str "X", fecha := JPrim.str "2024-01-01",
    hora := JPrim.str "10:00", goles_favor_loc := none,
    goles_favor_vis := none,
    goles := JList.arr [{ team := JPrim.str "local",
                          jugador := JPrim.str "P1", minuto := some 10,
                          penalty := none, own_goal := none }],
    tarjetas := JList.absent }

/-- A minimal valid payload with no child entries. -/
def payloadPlain : MatchPayload :=
  { equipo_local := JPrim.str "A", equipo_visitante := JPrim.str "B",
    cancha := JPrim.str "X", fecha := JPrim.str "2024-01-01",
    hora := JPrim.str "10:00", goles_favor_loc := none,
    goles_favor_vis := none, goles := JList.absent,
    tarjetas := JList.absent }

/-- A payload whose `equipo_local` key is present but holds the empty
string (a falsy value). -/
def payloadFalsyLocal : MatchPayload :=
  { payloadPlain with equipo_local := JPrim.str "" }

/-- A payload with no `equipo_local` key at all. -/
def payloadNoLocal : MatchPayload :=
  { payloadPlain with equipo_local := JPrim.absent }

/-- A valid payload whose goals are not listed in minute order
(minute 20 before minute 10): used against the round-trip claim. -/
def payloadOutOfOrder : MatchPayload :=
  { equipo_local := JPrim.str "A", equipo_visitante := JPrim.str "B",
    cancha := JPrim.str "X", fecha := JPrim.str "2024-01-01",
    hora := JPrim.str "10:00", goles_favor_loc := some 2,
    goles_favor_vis := some 0,
    goles := JList.arr
      [{ team := JPrim.str "local", jugador := JPrim.str "P1",
         minuto := some 20, penalty := none, own_goal := none },
       { team := JPrim.str "local", jugador := JPrim.str "P2",
         minuto := some 10, penalty := none, own_goal := none }],
    tarjetas := JList.arr [] }

/-- The stored match row of `dbOne`. -/
def rowOne : MatchRow :=
  { id := 1, equipo_local := "A", equipo_visitante := "B",
    goles_favor_loc := 1, goles_favor_vis := 0,
    cancha := "X", fecha := "2024-01-01", hora := "10:00",
    created_at := 0 }

/-- A populated database: one match (id 1) with one goal and one card. -/
def dbOne : DB :=
  { matchesTable := [rowOne],
    goals := [{ id := 1, match_id := 1, team := "local", jugador := "P1",
                minuto := 30, penalty := false, own_goal := false }],
    cards := [{ id := 1, match_id := 1, team := "visitante", jugador := "Q1",
                minuto := 44, tipo := "amarilla" }],
    nextMatchId := 2, nextGoalId := 2, nextCardId := 2, now := 0 }

/-- C7: POSTing the spec's concrete scenario payload to a fresh database
responds 201 Created with exactly one goal recorded for the new match,
whose `penalty` and `own_goal` flags default to `false`. -/
theorem c7_post_scenario :
    postHandler dbEmpty payloadScenario =
      ({ matchesTable := [{ id := 1, equipo_local := "A",
                            equipo_visitante := "B", goles_favor_loc := 0,
                            goles_favor_vis := 0, cancha := "X",
                            fecha := "2024-01-01", hora := "10:00",
                            created_at := 0 }],
         goals := [{ id := 1, match_id := 1, team := "local",
                     jugador := "P1", minuto := 10, penalty := false,
                     own_goal := false }],
         cards := [],
         nextMatchId := 2, nextGoalId := 2, nextCardId := 1, now := 0 },
       Resp.created
         { base := { id := 1, equipo_local := "A", equipo_visitante := "B",
                     goles_favor_loc := 0, goles_favor_vis := 0,
                     cancha := "X", fecha := "2024-01-01", hora := "10:00" },
           goles := [{ id := 1, team := "local", jugador := "P1",
                       minuto := 10, penalty := false, own_goal := false }],
           tarjetas := [] }) := by
  decide

/-! Basic facts about truthiness and serialisation. -/

theorem truthy_toText_isSome {j : JPrim} (h : truthy j = true) :
    (toText j).isSome = true := by
  cases j <;> simp_all [truthy, toText]

theorem okTeam_cases {t : JPrim} (h : okTeam t = true) :
    t = JPrim.str "local" ∨ t = JPrim.str "visitante" := by
  cases t <;> simp_all [okTeam]

theorem okTipo_cases {t : JPrim} (h : okTipo t = true) :
    t = JPrim.str "amarilla" ∨ t = JPrim.str "roja" := by
  cases t <;> simp_all [okTipo]

/-! What a passing validation guarantees, per entry and per payload. -/

theorem validateGoalEntry_none {g : GoalIn} (h : validateGoalEntry g = none) :
    okTeam g.team = true ∧ truthy g.jugador = true ∧ minOk g.minuto = true := by
  obtain ⟨t, j, m, pe, og⟩ := g
  cases hok : okTeam t <;> cases hj : truthy j <;> cases m <;>
    simp_all [validateGoalEntry, minOk] <;> omega

theorem validateCardEntry_none {c : CardIn} (h : validateCardEntry c = none) :
    okTeam c.team = true ∧ truthy c.jugador = true ∧ minOk c.minuto = true ∧
      okTipo c.tipo = true := by
  obtain ⟨t, j, m, tp⟩ := c
  cases hok : okTeam t <;> cases hj : truthy j <;> cases m <;>
    cases htp : okTipo tp <;> simp_all [validateCardEntry, minOk] <;>
    first
    | omega
    | (split at h <;> simp_all)

theorem validateMatch_none_parts {p : MatchPayload}
    (h : validateMatch p = none) :
    requiredFields.find? (fun k => !truthy (getReq p k)) = none ∧
    jsNeg p.goles_favor_loc = false ∧ jsNeg p.goles_favor_vis = false ∧
    isNonArray p.goles = false ∧ isNonArray p.tarjetas = false ∧
    (∀ g ∈ jarr p.goles, validateGoalEntry g = none) ∧
    (∀ c ∈ jarr p.tarjetas, validateCardEntry c = none) := by
  unfold validateMatch at h
  cases hf : requiredFields.find? (fun k => !truthy (getReq p k)) <;>
    rw [hf] at h
  · cases h1 : jsNeg p.goles_favor_loc <;> rw [h1] at h <;> [skip; simp_all]
    cases h2 : jsNeg p.goles_favor_vis <;> rw [h2] at h <;> [skip; simp_all]
    cases h3 : isNonArray p.goles <;> rw [h3] at h <;> [skip; simp_all]
    cases h4 : isNonArray p.tarjetas <;> rw [h4] at h <;> [skip; simp_all]
    simp only [Bool.or_self, Bool.false_eq_true, if_false] at h
    cases h5 : (jarr p.goles).findSome? validateGoalEntry <;> rw [h5] at h
    · refine ⟨rfl, rfl, rfl, rfl, rfl, ?_, ?_⟩
      · exact fun g hg => List.findSome?_eq_none_iff.mp h5 g hg
      · exact fun c hc => List.findSome?_eq_none_iff.mp h c hc
    · simp at h
  · simp at h

/-! The insert loops on validated entries. -/

theorem goalInsertOk_of {db : DB} {mid : Nat} {g : GoalIn}
    (hmem : db.matchesTable.any (fun m => m.id == mid) = true)
    (hv : validateGoalEntry g = none) :
    goalInsertOk db mid g = true := by
  obtain ⟨hteam, hjug, hmin⟩ := validateGoalEntry_none hv
  have hj := truthy_toText_isSome hjug
  have hm : g.minuto.isSome = true := by
    cases hmm : g.minuto <;> simp_all [minOk]
  rcases okTeam_cases hteam with h | h <;>
    simp [goalInsertOk, h, hmem, hj, hm,
      show toText (JPrim.str "local") = some "local" from rfl,
      show toText (JPrim.str "visitante") = some "visitante" from rfl]

theorem cardInsertOk_of {db : DB} {mid : Nat} {c : CardIn}
    (hmem : db.matchesTable.any (fun m => m.id == mid) = true)
    (hv : validateCardEntry c = none) :
    cardInsertOk db mid c = true := by
  obtain ⟨hteam, hjug, hmin, htipo⟩ := validateCardEntry_none hv
  have hj := truthy_toText_isSome hjug
  have hm : c.minuto.isSome = true := by
    cases hmm : c.minuto <;> simp_all [minOk]
  rcases okTeam_cases hteam with h | h <;>
    rcases okTipo_cases htipo with h2 | h2 <;>
      simp [cardInsertOk, h, h2, hmem, hj, hm,
        show toText (JPrim.str "local") = some "local" from rfl,
        show toText (JPrim.str "visitante") = some "visitante" from rfl,
        show toText (JPrim.str "amarilla") = some "amarilla" from rfl,
        show toText (JPrim.str "roja") = some "roja" from rfl]

theorem insertGoals_ok {mid : Nat} :
    ∀ (gs : List GoalIn) (db : DB),
      (∀ g ∈ gs, validateGoalEntry g = none) →
      db.matchesTable.any (fun m => m.id == mid) = true →
      insertGoals db mid gs =
        Except.ok
          { db with goals := db.goals ++ mkGoalRows db.nextGoalId mid gs,
                    nextGoalId := db.nextGoalId + gs.length } := by
  intro gs
  induction gs with
  | nil => intro db _ _; simp [insertGoals, mkGoalRows]
  | cons g gs ih =>
    intro db hall hmem
    have hok := goalInsertOk_of hmem (hall g (by simp))
    rw [insertGoals, insertGoal, if_pos hok]
    dsimp only
    have hmem1 :
        ({ db with
           goals := db.goals ++ [mkGoalRow db.nextGoalId mid g]
           nextGoalId := db.nextGoalId + 1 } : DB).matchesTable.any
          (fun m => m.id == mid) = true := hmem
    rw [ih _ (fun g' hg' => hall g' (by simp [hg'])) hmem1]
    refine congrArg Except.ok ?_
    have hlen : db.nextGoalId + 1 + gs.length = db.nextGoalId + (gs.length + 1) := by
      omega
    simp [mkGoalRows, List.append_assoc, hlen]

theorem insertCards_ok {mid : Nat} :
    ∀ (cs : List CardIn) (db : DB),
      (∀ c ∈ cs, validateCardEntry c = none) →
      db.matchesTable.any (fun m => m.id == mid) = true →
      insertCards db mid cs =
        Except.ok
          { db with cards := db.cards ++ mkCardRows db.nextCardId mid cs,
                    nextCardId := db.nextCardId + cs.length } := by
  intro cs
  induction cs with
  | nil => intro db _ _; simp [insertCards, mkCardRows]
  | cons c cs ih =>
    intro db hall hmem
    have hok := cardInsertOk_of hmem (hall c (by simp))
    rw [insertCards, insertCard, if_pos hok]
    dsimp only
    have hmem1 :
        ({ db with
           cards := db.cards ++ [mkCardRow db.nextCardId mid c]
           nextCardId := db.nextCardId + 1 } : DB).matchesTable.any
          (fun m => m.id == mid) = true := hmem
    rw [ih _ (fun c' hc' => hall c' (by simp [hc'])) hmem1]
    refine congrArg Except.ok ?_
    have hlen : db.nextCardId + 1 + cs.length = db.nextCardId + (cs.length + 1) := by
      omega
    simp [mkCardRows, List.append_assoc, hlen]

/-! Which tables each write leaves untouched. -/

theorem insertGoal_pres {db db' : DB} {mid : Nat} {g : GoalIn}
    (h : insertGoal db mid g = Except.ok db') :
    db'.matchesTable = db.matchesTable ∧ db'.cards = db.cards := by
  unfold insertGoal at h
  split at h
  · cases h; exact ⟨rfl, rfl⟩
  · cases h

theorem insertGoals_pres {mid : Nat} :
    ∀ (gs : List GoalIn) (db db' : DB),
      insertGoals db mid gs = Except.ok db' →
      db'.matchesTable = db.matchesTable ∧ db'.cards = db.cards := by
  intro gs
  induction gs with
  | nil => intro db db' h; cases h; exact ⟨rfl, rfl⟩
  | cons g gs ih =>
    intro db db' h
    rw [insertGoals] at h
    cases h1 : insertGoal db mid g <;> rw [h1] at h
    · cases h
    case ok db1 =>
      obtain ⟨e1, e2⟩ := insertGoal_pres h1
      obtain ⟨e3, e4⟩ := ih db1 db' h
      exact ⟨e3.trans e1, e4.trans e2⟩

theorem insertCard_pres {db db' : DB} {mid : Nat} {c : CardIn}
    (h : insertCard db mid c = Except.ok db') :
    db'.matchesTable = db.matchesTable ∧ db'.goals = db.goals := by
  unfold insertCard at h
  split at h
  · cases h; exact ⟨rfl, rfl⟩
  · cases h

theorem insertCards_pres {mid : Nat} :
    ∀ (cs : List CardIn) (db db' : DB),
      insertCards db mid cs = Except.ok db' →
      db'.matchesTable = db.matchesTable ∧ db'.goals = db.goals := by
  intro cs
  induction cs with
  | nil => intro db db' h; cases h; exact ⟨rfl, rfl⟩
  | cons c cs ih =>
    intro db db' h
    rw [insertCards] at h
    cases h1 : insertCard db mid c <;> rw [h1] at h
    · cases h
    case ok db1 =>
      obtain ⟨e1, e2⟩ := insertCard_pres h1
      obtain ⟨e3, e4⟩ := ih db1 db' h
      exact ⟨e3.trans e1, e4.trans e2⟩

/-- The UPDATE statement of PUT keeps the set of match ids (and the other
tables) unchanged. -/
theorem putMatchUpdate_pres {db db1 : DB} {id : Nat} {p : MatchPayload}
    (h : putMatchUpdate db id p = Except.ok db1) :
    db1.matchesTable.map MatchRow.id = db.matchesTable.map MatchRow.id ∧
    db1.goals = db.goals ∧ db1.cards = db.cards := by
  unfold putMatchUpdate at h
  split at h
  · cases h
    refine ⟨?_, rfl, rfl⟩
    simp only [List.map_map]
    refine List.map_congr_left ?_
    intro m _
    by_cases hm : m.id = id <;> simp [hm]
  · split at h
    · cases h
    · cases h; exact ⟨rfl, rfl, rfl⟩

/-- A successful PUT transaction does not change which match ids exist. -/
theorem txnPut_match_ids {db db' : DB} {id : Nat} {p : MatchPayload}
    (h : txnPut db id p = Except.ok db') :
    db'.matchesTable.map MatchRow.id = db.matchesTable.map MatchRow.id := by
  unfold txnPut at h
  cases h1 : putMatchUpdate db id p <;> rw [h1] at h
  · cases h
  case ok db1 =>
    dsimp only at h
    cases h2 : insertGoals
        { db1 with
          goals := db1.goals.filter (fun g => !(g.match_id == id))
          cards := db1.cards.filter (fun c => !(c.match_id == id)) }
        id (jarr p.goles) <;> rw [h2] at h
    · cases h
    case ok db3 =>
      obtain ⟨e1, _⟩ := insertGoals_pres _ _ _ h2
      obtain ⟨e3, _⟩ := insertCards_pres _ _ _ h
      have : db'.matchesTable = db1.matchesTable := by
        rw [e3, e1]
      rw [this]
      exact (putMatchUpdate_pres h1).1

/-- C1 (amended): a PUT whose payload passes validation but whose id names
no stored match responds with the generic 500 server error (the handler
has no not-found branch), not with a 404. -/
theorem c1_put_absent_id_is_server_error (db : DB) (id : Nat)
    (p : MatchPayload) (hv : validateMatch p = none)
    (habs : ∀ m ∈ db.matchesTable, m.id ≠ id) :
    (putHandler db id p).2 = Resp.serverError := by
  unfold putHandler
  rw [hv]
  cases ht : txnPut db id p
  · rfl
  case ok db1 =>
    have hids := txnPut_match_ids ht
    have hnone : db1.matchesTable.find? (fun m => m.id == id) = none := by
      rw [List.find?_eq_none]
      intro m hm
      have : m.id ∈ db.matchesTable.map MatchRow.id := by
        rw [← hids]
        exact List.mem_map_of_mem MatchRow.id hm
      obtain ⟨m0, hm0, hid0⟩ := List.mem_map.mp this
      simpa [hid0] using habs m0 hm0
    dsimp only
    rw [hnone]

/-- C1 counterexample: a validation-passing payload PUT at id 1 against
the empty database yields a 500, not the 404 the claim states. -/
theorem c1_counterexample :
    validateMatch payloadPlain = none ∧
    dbEmpty.matchesTable = [] ∧
    (putHandler dbEmpty 1 payloadPlain).2 = Resp.serverError ∧
    (putHandler dbEmpty 1 payloadPlain).2 ≠ Resp.notFound := by
  decide

/-- C1 witness: the amended theorem applied to the empty database. -/
theorem c1_witness :
    (putHandler dbEmpty 2 payloadScenario).2 = Resp.serverError :=
  c1_put_absent_id_is_server_error dbEmpty 2 payloadScenario (by decide)
    (by decide)

/-- C3: once validation has passed, a failure of any statement inside the
POST or PUT transaction rolls every write back (the returned database is
the original one) and the request surfaces as the generic 500 server
error. -/
theorem c3_txn_failure_rollback (db : DB) (id : Nat) (p : MatchPayload)
    (hv : validateMatch p = none) :
    (∀ e, txnPost db p = Except.error e →
       postHandler db p = (db, Resp.serverError)) ∧
    (∀ e, txnPut db id p = Except.error e →
       putHandler db id p = (db, Resp.serverError)) := by
  constructor
  · intro e he
    unfold postHandler
    rw [hv, he]
  · intro e he
    unfold putHandler
    rw [hv, he]

/-- C3 witness: reinserting a goal for a non-existent match id violates
the foreign key inside the PUT transaction; the state is unchanged and
the response is the 500. -/
theorem c3_witness :
    txnPut dbEmpty 5 payloadScenario = Except.error "goals_insert_failed" ∧
    putHandler dbEmpty 5 payloadScenario = (dbEmpty, Resp.serverError) :=
  ⟨by rfl,
   (c3_txn_failure_rollback dbEmpty 5 payloadScenario (by decide)).2
     "goals_insert_failed" (by rfl)⟩

/-- C10: a required field that is present but falsy is reported exactly
like an absent key: whenever `k` is the first required field whose value
is not truthy, the validator answers `Falta: k` and POST/PUT reject with
400 leaving the database unchanged. -/
theorem c10_falsy_required_field (db : DB) (id : Nat) (p : MatchPayload)
    (k : String)
    (hk : requiredFields.find? (fun s => !truthy (getReq p s)) = some k) :
    validateMatch p = some ("Falta: " ++ k) ∧
    postHandler db p = (db, Resp.badRequest ("Falta: " ++ k)) ∧
    putHandler db id p = (db, Resp.badRequest ("Falta: " ++ k)) := by
  have hv : validateMatch p = some ("Falta: " ++ k) := by
    unfold validateMatch
    rw [hk]
  refine ⟨hv, ?_, ?_⟩
  · unfold postHandler; rw [hv]
  · unfold putHandler; rw [hv]

/-- C10 witness: `equipo_local` present as the empty string is treated as
missing — same error text as the fully absent key — and POST rejects
with 400. -/
theorem c10_witness :
    payloadFalsyLocal.equipo_local = JPrim.str "" ∧
    validateMatch payloadFalsyLocal = some "Falta: equipo_local" ∧
    validateMatch payloadFalsyLocal = validateMatch payloadNoLocal ∧
    postHandler dbEmpty payloadFalsyLocal =
      (dbEmpty, Resp.badRequest "Falta: equipo_local") :=
  ⟨by decide,
   (c10_falsy_required_field dbEmpty 1 payloadFalsyLocal "equipo_local"
      (by decide)).1,
   by decide,
   (c10_falsy_required_field dbEmpty 1 payloadFalsyLocal "equipo_local"
      (by decide)).2.1⟩

/-- C6: every payload with a missing required field, a negative score
tally, a goal/card entry whose side is invalid, a card whose type is
outside the two enumerated values, or a goal/card with a negative minute
is rejected by the validator, and POST/PUT answer 400 with that message
without touching the database. -/
theorem c6_invalid_payload_rejected (db : DB) (id : Nat) (p : MatchPayload)
    (hbad :
      (∃ k ∈ requiredFields, getReq p k = JPrim.absent) ∨
      (∃ n : Int,
        (p.goles_favor_loc = some n ∨ p.goles_favor_vis = some n) ∧ n < 0) ∨
      (∃ gs, p.goles = JList.arr gs ∧ ∃ g ∈ gs, okTeam g.team = false) ∨
      (∃ cs, p.tarjetas = JList.arr cs ∧ ∃ c ∈ cs, okTeam c.team = false) ∨
      (∃ cs, p.tarjetas = JList.arr cs ∧ ∃ c ∈ cs, okTipo c.tipo = false) ∨
      (∃ gs, p.goles = JList.arr gs ∧
        ∃ g ∈ gs, ∃ m : Int, g.minuto = some m ∧ m < 0) ∨
      (∃ cs, p.tarjetas = JList.arr cs ∧
        ∃ c ∈ cs, ∃ m : Int, c.minuto = some m ∧ m < 0)) :
    ∃ e, validateMatch p = some e ∧
      postHandler db p = (db, Resp.badRequest e) ∧
      putHandler db id p = (db, Resp.badRequest e) := by
  have hne : validateMatch p ≠ none := by
    intro hv
    obtain ⟨hreq, h1, h2, h3, h4, hg, hc⟩ := validateMatch_none_parts hv
    rw [List.find?_eq_none] at hreq
    rcases hbad with ⟨k, hk, habs⟩ | ⟨n, hn, hneg⟩ |
        ⟨gs, hgs, g, hgmem, hteam⟩ | ⟨cs, hcs, c, hcmem, hteam⟩ |
        ⟨cs, hcs, c, hcmem, htipo⟩ | ⟨gs, hgs, g, hgmem, m, hm, hneg⟩ |
        ⟨cs, hcs, c, hcmem, m, hm, hneg⟩
    · have := hreq k hk
      simp [habs, truthy] at this
    · unfold jsNeg at h1 h2
      rcases hn with hl | hl
      · rw [hl] at h1
        simp at h1
        omega
      · rw [hl] at h2
        simp at h2
        omega
    · have := validateGoalEntry_none (hg g (by simp [hgs, jarr, hgmem]))
      simp_all
    · have := validateCardEntry_none (hc c (by simp [hcs, jarr, hcmem]))
      simp_all
    · have := validateCardEntry_none (hc c (by simp [hcs, jarr, hcmem]))
      simp_all
    · obtain ⟨_, _, hmin⟩ :=
        validateGoalEntry_none (hg g (by simp [hgs, jarr, hgmem]))
      rw [hm] at hmin
      simp [minOk] at hmin
      omega
    · obtain ⟨_, _, hmin, _⟩ :=
        validateCardEntry_none (hc c (by simp [hcs, jarr, hcmem]))
      rw [hm] at hmin
      simp [minOk] at hmin
      omega
  obtain ⟨e, he⟩ := Option.ne_none_iff_exists'.mp hne
  exact ⟨e, he, by unfold postHandler; rw [he], by unfold putHandler; rw [he]⟩

/-- C6 witness: the payload with no `equipo_local` is rejected with 400 by
POST and PUT on the empty database. -/
theorem c6_witness :
    ∃ e, validateMatch payloadNoLocal = some e ∧
      postHandler dbEmpty payloadNoLocal = (dbEmpty, Resp.badRequest e) ∧
      putHandler dbEmpty 1 payloadNoLocal = (dbEmpty, Resp.badRequest e) :=
  c6_invalid_payload_rejected dbEmpty 1 payloadNoLocal
    (Or.inl ⟨"equipo_local", by decide, by decide⟩)

/-- C8: DELETE of a stored id removes the match row together with all of
its goal and card rows (no orphan children remain, other rows are kept)
and responds `{ok:true}`; DELETE of an absent id responds 404 and leaves
the database unchanged. -/
theorem c8_delete_cascade (db : DB) (id : Nat) :
    (db.matchesTable.any (fun m => m.id == id) = true →
      ∃ db1, deleteHandler db id = (db1, Resp.ok ()) ∧
        (∀ m ∈ db1.matchesTable, m.id ≠ id) ∧
        (∀ g ∈ db1.goals, g.match_id ≠ id) ∧
        (∀ c ∈ db1.cards, c.match_id ≠ id) ∧
        (∀ m ∈ db.matchesTable, m.id ≠ id → m ∈ db1.matchesTable) ∧
        (∀ g ∈ db.goals, g.match_id ≠ id → g ∈ db1.goals) ∧
        (∀ c ∈ db.cards, c.match_id ≠ id → c ∈ db1.cards)) ∧
    (db.matchesTable.any (fun m => m.id == id) = false →
      deleteHandler db id = (db, Resp.notFound)) := by
  constructor
  · intro hmem
    obtain ⟨m0, hm0, hid0⟩ := List.any_eq_true.mp hmem
    have hm0f : m0 ∈ matchedRows db id :=
      List.mem_filter.mpr ⟨hm0, hid0⟩
    have hne : ¬((matchedRows db id).length == 0) = true := by
      have := List.length_pos.mpr (List.ne_nil_of_mem hm0f)
      simp only [beq_iff_eq]
      omega
    refine ⟨dbAfterDelete db id, ?_, ?_, ?_, ?_, ?_, ?_, ?_⟩
    · unfold deleteHandler
      rw [if_neg hne]
    · intro m hm
      have := (List.mem_filter.mp hm).2
      simpa using this
    · intro g hg heq
      have hcond := (List.mem_filter.mp hg).2
      rw [Bool.not_eq_eq_eq_not, Bool.not_true, List.any_eq_false] at hcond
      exact hcond m0 hm0f (by simp_all)
    · intro c hc heq
      have hcond := (List.mem_filter.mp hc).2
      rw [Bool.not_eq_eq_eq_not, Bool.not_true, List.any_eq_false] at hcond
      exact hcond m0 hm0f (by simp_all)
    · intro m hm hne2
      exact List.mem_filter.mpr ⟨hm, by simpa using hne2⟩
    · intro g hg hne2
      refine List.mem_filter.mpr ⟨hg, ?_⟩
      rw [Bool.not_eq_eq_eq_not, Bool.not_true, List.any_eq_false]
      intro m hmf
      have : m.id = id := by simpa using (List.mem_filter.mp hmf).2
      simp [this]
      omega
    · intro c hc hne2
      refine List.mem_filter.mpr ⟨hc, ?_⟩
      rw [Bool.not_eq_eq_eq_not, Bool.not_true, List.any_eq_false]
      intro m hmf
      have : m.id = id := by simpa using (List.mem_filter.mp hmf).2
      simp [this]
      omega
  · intro hnone
    have hmr : matchedRows db id = [] :=
      List.filter_eq_nil_iff.mpr
        (fun m hm => by simpa using (List.any_eq_false.mp hnone) m hm)
    have h1 : db.matchesTable.filter (fun m => !(m.id == id)) =
        db.matchesTable :=
      List.filter_eq_self.mpr
        (fun m hm => by simpa using (List.any_eq_false.mp hnone) m hm)
    have hdb : dbAfterDelete db id = db := by
      unfold dbAfterDelete
      rw [hmr, h1]
      have hg : db.goals.filter
          (fun g => !(List.any ([] : List MatchRow)
            (fun m => m.id == g.match_id))) =
          db.goals := List.filter_eq_self.mpr (fun g _ => rfl)
      have hc : db.cards.filter
          (fun c => !(List.any ([] : List MatchRow)
            (fun m => m.id == c.match_id))) =
          db.cards := List.filter_eq_self.mpr (fun c _ => rfl)
      rw [hg, hc]
    unfold deleteHandler
    rw [if_pos (by simp [hmr]), hdb]

/-- C8 witness: on the one-match database, DELETE at id 1 succeeds and
leaves no orphan children; DELETE at id 99 answers 404 unchanged. -/
theorem c8_witness :
    (∃ db1, deleteHandler dbOne 1 = (db1, Resp.ok ()) ∧
      (∀ m ∈ db1.matchesTable, m.id ≠ 1) ∧
      (∀ g ∈ db1.goals, g.match_id ≠ 1) ∧
      (∀ c ∈ db1.cards, c.match_id ≠ 1) ∧
      (∀ m ∈ dbOne.matchesTable, m.id ≠ 1 → m ∈ db1.matchesTable) ∧
      (∀ g ∈ dbOne.goals, g.match_id ≠ 1 → g ∈ db1.goals) ∧
      (∀ c ∈ dbOne.cards, c.match_id ≠ 1 → c ∈ db1.cards)) ∧
    deleteHandler dbOne 99 = (dbOne, Resp.notFound) :=
  ⟨(c8_delete_cascade dbOne 1).1 (by decide),
   (c8_delete_cascade dbOne 99).2 (by decide)⟩

/-! The `ORDER BY` model is a permutation, and sorts when the key order
is total and transitive. -/

theorem ordIns_perm {α : Type} (le : α → α → Bool) (a : α) :
    ∀ l : List α, List.Perm (ordIns le a l) (a :: l) := by
  intro l
  induction l with
  | nil => exact List.Perm.refl _
  | cons b t ih =>
    rw [ordIns]
    split
    · exact List.Perm.refl _
    · exact (ih.cons b).trans (List.Perm.swap a b t)

theorem sortBy_perm {α : Type} (le : α → α → Bool) :
    ∀ l : List α, List.Perm (sortBy le l) l := by
  intro l
  induction l with
  | nil => exact List.Perm.refl _
  | cons b t ih =>
    rw [sortBy]
    exact (ordIns_perm le b (sortBy le t)).trans (ih.cons b)

theorem ordIns_pairwise {α : Type} (le : α → α → Bool)
    (htot : ∀ x y, le x y = true ∨ le y x = true)
    (htrans : ∀ x y z, le x y = true → le y z = true → le x z = true)
    (a : α) :
    ∀ l : List α, l.Pairwise (fun x y => le x y = true) →
      (ordIns le a l).Pairwise (fun x y => le x y = true) := by
  intro l
  induction l with
  | nil => intro _; simp [ordIns]
  | cons b t ih =>
    intro hp
    obtain ⟨hb, ht⟩ := List.pairwise_cons.mp hp
    rw [ordIns]
    split
    case isTrue hab =>
      refine List.pairwise_cons.mpr ⟨?_, hp⟩
      intro x hx
      rcases List.mem_cons.mp hx with rfl | hx
      · exact hab
      · exact htrans a b x hab (hb x hx)
    case isFalse hab =>
      refine List.pairwise_cons.mpr ⟨?_, ih ht⟩
      intro x hx
      have hx2 := (ordIns_perm le a t).mem_iff.mp hx
      rcases List.mem_cons.mp hx2 with rfl | hx2
      · rcases htot x b with h | h
        · exact absurd h hab
        · exact h
      · exact hb x hx2

theorem sortBy_pairwise {α : Type} (le : α → α → Bool)
    (htot : ∀ x y, le x y = true ∨ le y x = true)
    (htrans : ∀ x y z, le x y = true → le y z = true → le x z = true) :
    ∀ l : List α, (sortBy le l).Pairwise (fun x y => le x y = true) := by
  intro l
  induction l with
  | nil => simp [sortBy]
  | cons b t ih =>
    rw [sortBy]
    exact ordIns_pairwise le htot htrans b (sortBy le t) ih

/-- C2: the list endpoint returns one entry per stored match (all of
them); every entry has empty `goles`/`tarjetas` detail arrays and its
`_counts` fields equal the exact number of goal rows and card rows stored
for that match. -/
theorem c2_list_counts (db : DB) :
    listHandler db = Resp.ok (listBody db) ∧
    List.Perm ((listBody db).map ListEntry.base)
      (db.matchesTable.map mapMatch) ∧
    ∀ e ∈ listBody db, e.goles = [] ∧ e.tarjetas = [] ∧
      e.counts.goles =
        (db.goals.filter (fun g => g.match_id == e.base.id)).length ∧
      e.counts.tarjetas =
        (db.cards.filter (fun c => c.match_id == e.base.id)).length := by
  refine ⟨rfl, ?_, ?_⟩
  · unfold listBody
    rw [List.map_map]
    have h1 := (sortBy_perm matchDescLe db.matchesTable).map
      (ListEntry.base ∘ listEntry db)
    have h2 : db.matchesTable.map (ListEntry.base ∘ listEntry db) =
        db.matchesTable.map mapMatch :=
      List.map_congr_left (fun m _ => rfl)
    rw [← h2]
    exact h1
  · intro e he
    unfold listBody at he
    obtain ⟨r, hr, rfl⟩ := List.mem_map.mp he
    exact ⟨rfl, rfl, rfl, rfl⟩

/-- C2 witness: the single-match database's list response has the entry
for its match, with empty detail arrays and exact counts 1 and 1. -/
theorem c2_witness :
    (listEntry dbOne rowOne).goles = [] ∧
    (listEntry dbOne rowOne).tarjetas = [] ∧
    (listEntry dbOne rowOne).counts.goles =
      (dbOne.goals.filter
        (fun g => g.match_id == (listEntry dbOne rowOne).base.id)).length ∧
    (listEntry dbOne rowOne).counts.tarjetas =
      (dbOne.cards.filter
        (fun c => c.match_id == (listEntry dbOne rowOne).base.id)).length :=
  (c2_list_counts dbOne).2.2 (listEntry dbOne rowOne) (by decide)

/-- C9: the two server variants in the source file are observationally
equivalent: the two validators agree on every payload, and each pair of
corresponding route handlers produces the same database state and the
same response on every input. -/
theorem c9_variants_equivalent :
    validateMatch2 = validateMatch ∧
    listHandler2 = listHandler ∧
    getOneHandler2 = getOneHandler ∧
    postHandler2 = postHandler ∧
    putHandler2 = putHandler ∧
    deleteHandler2 = deleteHandler :=
  ⟨rfl, rfl, rfl, rfl, rfl, rfl⟩

/-! The validator agrees with the ordered-check reading of the spec. -/

theorem validateGoalEntry_eq_spec : validateGoalEntry = goalEntrySpec := by
  funext g
  unfold validateGoalEntry goalEntrySpec firstErr
  cases hok : okTeam g.team
  · simp [List.findSome?]
  · cases hj : truthy g.jugador
    · simp [List.findSome?]
    · cases hm : g.minuto
      · simp [List.findSome?, minOk]
      case some m =>
        by_cases hlt : m < 0
        · simp [List.findSome?, minOk, hlt, show ¬(0 ≤ m) from by omega]
        · simp [List.findSome?, minOk, hlt, show (0 ≤ m) from by omega]

theorem validateCardEntry_eq_spec : validateCardEntry = cardEntrySpec := by
  funext c
  unfold validateCardEntry cardEntrySpec firstErr
  cases hok : okTeam c.team
  · simp [List.findSome?]
  · cases hj : truthy c.jugador
    · simp [List.findSome?]
    · cases hm : c.minuto
      · simp [List.findSome?, minOk]
      case some m =>
        cases htp : okTipo c.tipo
        · by_cases hlt : m < 0
          · simp [List.findSome?, minOk, hlt, show ¬(0 ≤ m) from by omega]
          · simp [List.findSome?, minOk, hlt, show (0 ≤ m) from by omega]
        · by_cases hlt : m < 0
          · simp [List.findSome?, minOk, hlt, show ¬(0 ≤ m) from by omega]
          · simp [List.findSome?, minOk, hlt, show (0 ≤ m) from by omega]

/-- C5: the validator is pure (a function of the payload alone) and
performs the checks in the stated order — the five required scalar
fields, then non-negative tallies, then array shape of goles/tarjetas,
then the per-entry side/player/minute checks and the card-type check —
returning the first violation, or no error. -/
theorem c5_validator_check_order (p : MatchPayload) :
    validateMatch p = validateMatchSpec p := by
  have g1 : getReq p "equipo_local" = p.equipo_local := rfl
  have g2 : getReq p "equipo_visitante" = p.equipo_visitante := rfl
  have g3 : getReq p "cancha" = p.cancha := rfl
  have g4 : getReq p "fecha" = p.fecha := rfl
  have g5 : getReq p "hora" = p.hora := rfl
  unfold validateMatch validateMatchSpec checkRequiredSpec checkScoresSpec
    checkArraysSpec firstErr
  rw [validateGoalEntry_eq_spec, validateCardEntry_eq_spec]
  simp only [requiredFields, List.find?, g1, g2, g3, g4, g5]
  cases t1 : truthy p.equipo_local <;>
    cases t2 : truthy p.equipo_visitante <;>
      cases t3 : truthy p.cancha <;>
        cases t4 : truthy p.fecha <;>
          cases t5 : truthy p.hora <;>
            simp only [Bool.not_true, Bool.not_false, List.findSome?, id,
              if_true, if_false, ite_true, ite_false] <;>
            try rfl
  cases hneg : (jsNeg p.goles_favor_loc || jsNeg p.goles_favor_vis)
  · cases ha1 : isNonArray p.goles
    · cases ha2 : isNonArray p.tarjetas
      · simp only [hneg, ha1, ha2, Bool.false_eq_true, if_false,
          List.findSome?, id]
        cases hfg : (jarr p.goles).findSome? goalEntrySpec <;>
          cases hfc : (jarr p.tarjetas).findSome? cardEntrySpec <;>
            simp [hfg, hfc]
      · simp [hneg, ha1, ha2]
    · simp [hneg, ha1]
  · simp [hneg]

/-- C5 witness: on a payload violating only the card-type check, both the
validator and its spec reading agree on the (card-type) message. -/
theorem c5_witness :
    validateMatch
        { payloadPlain with
          tarjetas := JList.arr
            [{ team := JPrim.str "local", jugador := JPrim.str "Q",
               minuto := some 3, tipo := JPrim.str "azul" }] } =
      validateMatchSpec
        { payloadPlain with
          tarjetas := JList.arr
            [{ team := JPrim.str "local", jugador := JPrim.str "Q",
               minuto := some 3, tipo := JPrim.str "azul" }] } :=
  c5_validator_check_order _

/-! The (minute, id) order key is a total transitive order. -/

theorem byMinutoId_eq_true {α : Type} (mf : α → Int) (idf : α → Nat)
    (x y : α) :
    byMinutoId mf idf x y = true ↔
      (mf x < mf y ∨ (mf x = mf y ∧ idf x ≤ idf y)) := by
  simp [byMinutoId]

theorem byMinutoId_total {α : Type} (mf : α → Int) (idf : α → Nat) :
    ∀ x y, byMinutoId mf idf x y = true ∨ byMinutoId mf idf y x = true := by
  intro x y
  rw [byMinutoId_eq_true, byMinutoId_eq_true]
  omega

theorem byMinutoId_trans {α : Type} (mf : α → Int) (idf : α → Nat) :
    ∀ x y z, byMinutoId mf idf x y = true → byMinutoId mf idf y z = true →
      byMinutoId mf idf x z = true := by
  intro x y z
  rw [byMinutoId_eq_true, byMinutoId_eq_true, byMinutoId_eq_true]
  omega

/-! The rows the insert loops append: ownership and payload content. -/

theorem mkGoalRows_match_id {mid : Nat} :
    ∀ (gs : List GoalIn) (gid : Nat) (r : GoalRow),
      r ∈ mkGoalRows gid mid gs → r.match_id = mid := by
  intro gs
  induction gs with
  | nil => intro gid r hr; simp [mkGoalRows] at hr
  | cons g gs ih =>
    intro gid r hr
    rw [mkGoalRows] at hr
    rcases List.mem_cons.mp hr with rfl | hr
    · rfl
    · exact ih _ r hr

theorem mkCardRows_match_id {mid : Nat} :
    ∀ (cs : List CardIn) (cid : Nat) (r : CardRow),
      r ∈ mkCardRows cid mid cs → r.match_id = mid := by
  intro cs
  induction cs with
  | nil => intro cid r hr; simp [mkCardRows] at hr
  | cons c cs ih =>
    intro cid r hr
    rw [mkCardRows] at hr
    rcases List.mem_cons.mp hr with rfl | hr
    · rfl
    · exact ih _ r hr

theorem mkGoalRows_strip {mid : Nat} :
    ∀ (gs : List GoalIn) (gid : Nat),
      (mkGoalRows gid mid gs).map (fun r => stripGoal (goalRowOut r)) =
        gs.map goalView := by
  intro gs
  induction gs with
  | nil => intro gid; rfl
  | cons g gs ih =>
    intro gid
    rw [mkGoalRows]
    simp only [List.map_cons]
    rw [ih]
    rfl

theorem mkCardRows_strip {mid : Nat} :
    ∀ (cs : List CardIn) (cid : Nat),
      (mkCardRows cid mid cs).map (fun r => stripCard (cardRowOut r)) =
        cs.map cardView := by
  intro cs
  induction cs with
  | nil => intro cid; rfl
  | cons c cs ih =>
    intro cid
    rw [mkCardRows]
    simp only [List.map_cons]
    rw [ih]
    rfl

/-- A validated POST transaction commits and produces exactly the
appended-rows database `dbPost`, returning the fresh SERIAL id. -/
theorem txnPost_ok (db : DB) (p : MatchPayload) (a b c f h : String)
    (gs : List GoalIn) (cs : List CardIn)
    (hv : validateMatch p = none)
    (h1 : p.equipo_local = JPrim.str a) (h2 : p.equipo_visitante = JPrim.str b)
    (h3 : p.cancha = JPrim.str c) (h4 : p.fecha = JPrim.str f)
    (h5 : p.hora = JPrim.str h)
    (h8 : p.goles = JList.arr gs) (h9 : p.tarjetas = JList.arr cs) :
    txnPost db p =
      Except.ok (dbPost db p a b c f h gs cs, db.nextMatchId) := by
  obtain ⟨-, -, -, -, -, hg, hc⟩ := validateMatch_none_parts hv
  rw [h8] at hg
  rw [h9] at hc
  have hins : insertMatch db p =
      Except.ok
        ({ db with
           matchesTable := db.matchesTable ++ [mkMatchRow db a b c f h p]
           nextMatchId := db.nextMatchId + 1 }, db.nextMatchId) := by
    unfold insertMatch
    rw [h1, h2, h3, h4, h5]
    rfl
  have hmem1 :
      ({ db with
         matchesTable := db.matchesTable ++ [mkMatchRow db a b c f h p]
         nextMatchId := db.nextMatchId + 1 } : DB).matchesTable.any
        (fun m => m.id == db.nextMatchId) = true := by
    simp [mkMatchRow]
  have hgoals : insertGoals
      ({ db with
         matchesTable := db.matchesTable ++ [mkMatchRow db a b c f h p]
         nextMatchId := db.nextMatchId + 1 } : DB) db.nextMatchId gs =
      Except.ok
        ({ db with
           matchesTable := db.matchesTable ++ [mkMatchRow db a b c f h p]
           nextMatchId := db.nextMatchId + 1
           goals := db.goals ++ mkGoalRows db.nextGoalId db.nextMatchId gs
           nextGoalId := db.nextGoalId + gs.length } : DB) :=
    insertGoals_ok gs _ hg hmem1
  have hmem2 :
      ({ db with
         matchesTable := db.matchesTable ++ [mkMatchRow db a b c f h p]
         nextMatchId := db.nextMatchId + 1
         goals := db.goals ++ mkGoalRows db.nextGoalId db.nextMatchId gs
         nextGoalId := db.nextGoalId + gs.length } : DB).matchesTable.any
        (fun m => m.id == db.nextMatchId) = true := hmem1
  have hcards : insertCards
      ({ db with
         matchesTable := db.matchesTable ++ [mkMatchRow db a b c f h p]
         nextMatchId := db.nextMatchId + 1
         goals := db.goals ++ mkGoalRows db.nextGoalId db.nextMatchId gs
         nextGoalId := db.nextGoalId + gs.length } : DB) db.nextMatchId cs =
      Except.ok (dbPost db p a b c f h gs cs) :=
    insertCards_ok cs _ hc hmem2
  unfold txnPost
  rw [hins]
  dsimp only
  rw [h8]
  dsimp only [jarr]
  rw [hgoals]
  dsimp only
  rw [h9]
  dsimp only [jarr]
  rw [hcards]

/-- On a well-formed database the freshly inserted match row is the one
the post-commit `SELECT ... WHERE id=$1` finds. -/
theorem find_dbPost (db : DB) (p : MatchPayload) (a b c f h : String)
    (gs : List GoalIn) (cs : List CardIn) (hwf : WF db) :
    (dbPost db p a b c f h gs cs).matchesTable.find?
        (fun m => m.id == db.nextMatchId) =
      some (mkMatchRow db a b c f h p) := by
  unfold dbPost
  dsimp only
  rw [List.find?_append]
  have hnone : db.matchesTable.find? (fun m => m.id == db.nextMatchId) =
      none := by
    rw [List.find?_eq_none]
    intro m hm
    have := hwf.1 m hm
    simp only [beq_iff_eq]
    omega
  rw [hnone, Option.none_or]
  simp [List.find?, mkMatchRow]

/-- The goals the detail fetch returns for the fresh id are exactly the
sorted freshly inserted rows. -/
theorem fetchGoals_dbPost (db : DB) (p : MatchPayload) (a b c f h : String)
    (gs : List GoalIn) (cs : List CardIn) (hwf : WF db) :
    fetchGoals (dbPost db p a b c f h gs cs) db.nextMatchId =
      (sortBy (byMinutoId GoalRow.minuto GoalRow.id)
        (mkGoalRows db.nextGoalId db.nextMatchId gs)).map goalRowOut := by
  unfold fetchGoals dbPost
  dsimp only
  rw [List.filter_append]
  have hold : db.goals.filter (fun g => g.match_id == db.nextMatchId) =
      [] := by
    rw [List.filter_eq_nil_iff]
    intro g hg
    obtain ⟨m, hm, hgm⟩ := hwf.2.1 g hg
    have := hwf.1 m hm
    simp only [beq_iff_eq]
    omega
  have hnew : (mkGoalRows db.nextGoalId db.nextMatchId gs).filter
      (fun g => g.match_id == db.nextMatchId) =
      mkGoalRows db.nextGoalId db.nextMatchId gs := by
    rw [List.filter_eq_self]
    intro r hr
    simp [mkGoalRows_match_id gs _ r hr]
  rw [hold, hnew, List.nil_append]

/-- The cards the detail fetch returns for the fresh id. -/
theorem fetchCards_dbPost (db : DB) (p : MatchPayload) (a b c f h : String)
    (gs : List GoalIn) (cs : List CardIn) (hwf : WF db) :
    fetchCards (dbPost db p a b c f h gs cs) db.nextMatchId =
      (sortBy (byMinutoId CardRow.minuto CardRow.id)
        (mkCardRows db.nextCardId db.nextMatchId cs)).map cardRowOut := by
  unfold fetchCards dbPost
  dsimp only
  rw [List.filter_append]
  have hold : db.cards.filter (fun c => c.match_id == db.nextMatchId) =
      [] := by
    rw [List.filter_eq_nil_iff]
    intro r hr
    obtain ⟨m, hm, hgm⟩ := hwf.2.2 r hr
    have := hwf.1 m hm
    simp only [beq_iff_eq]
    omega
  have hnew : (mkCardRows db.nextCardId db.nextMatchId cs).filter
      (fun r => r.match_id == db.nextMatchId) =
      mkCardRows db.nextCardId db.nextMatchId cs := by
    rw [List.filter_eq_self]
    intro r hr
    simp [mkCardRows_match_id cs _ r hr]
  rw [hold, hnew, List.nil_append]

/-- C4 (amended): POST of a valid payload followed by GET of the returned
id yields an object whose scalar fields equal the input and whose
goal/card entries are those of the input up to reordering — the response
lists are sorted by minute (then insertion id), not kept in payload
order; generated ids and the `created_at` default are excluded. -/
theorem c4_post_then_get (db : DB) (p : MatchPayload) (a b c f h : String)
    (fl fv : Int) (gs : List GoalIn) (cs : List CardIn)
    (hwf : WF db) (hv : validateMatch p = none)
    (h1 : p.equipo_local = JPrim.str a) (h2 : p.equipo_visitante = JPrim.str b)
    (h3 : p.cancha = JPrim.str c) (h4 : p.fecha = JPrim.str f)
    (h5 : p.hora = JPrim.str h) (h6 : p.goles_favor_loc = some fl)
    (h7 : p.goles_favor_vis = some fv)
    (h8 : p.goles = JList.arr gs) (h9 : p.tarjetas = JList.arr cs) :
    ∃ db1 d, postHandler db p = (db1, Resp.created d) ∧
      getOneHandler db1 d.base.id = Resp.ok d ∧
      d.base.equipo_local = a ∧ d.base.equipo_visitante = b ∧
      d.base.cancha = c ∧ d.base.fecha = f ∧ d.base.hora = h ∧
      d.base.goles_favor_loc = fl ∧ d.base.goles_favor_vis = fv ∧
      List.Perm (d.goles.map stripGoal) (gs.map goalView) ∧
      List.Perm (d.tarjetas.map stripCard) (cs.map cardView) ∧
      d.goles.Pairwise (fun x y => x.minuto ≤ y.minuto) ∧
      d.tarjetas.Pairwise (fun x y => x.minuto ≤ y.minuto) := by
  refine ⟨dbPost db p a b c f h gs cs,
    { base := mapMatch (mkMatchRow db a b c f h p)
      goles := fetchGoals (dbPost db p a b c f h gs cs) db.nextMatchId
      tarjetas := fetchCards (dbPost db p a b c f h gs cs) db.nextMatchId },
    ?_, ?_, rfl, rfl, rfl, rfl, rfl, ?_, ?_, ?_, ?_, ?_, ?_⟩
  · unfold postHandler
    rw [hv, txnPost_ok db p a b c f h gs cs hv h1 h2 h3 h4 h5 h8 h9]
    dsimp only
    rw [find_dbPost db p a b c f h gs cs hwf]
  · show getOneHandler (dbPost db p a b c f h gs cs) db.nextMatchId = _
    unfold getOneHandler
    rw [find_dbPost db p a b c f h gs cs hwf]
  · simp [mapMatch, mkMatchRow, h6]
  · simp [mapMatch, mkMatchRow, h7]
  · dsimp only
    rw [fetchGoals_dbPost db p a b c f h gs cs hwf, List.map_map]
    have hperm := (sortBy_perm (byMinutoId GoalRow.minuto GoalRow.id)
      (mkGoalRows db.nextGoalId db.nextMatchId gs)).map
        (fun r => stripGoal (goalRowOut r))
    rw [mkGoalRows_strip] at hperm
    simpa [Function.comp_def] using hperm
  · dsimp only
    rw [fetchCards_dbPost db p a b c f h gs cs hwf, List.map_map]
    have hperm := (sortBy_perm (byMinutoId CardRow.minuto CardRow.id)
      (mkCardRows db.nextCardId db.nextMatchId cs)).map
        (fun r => stripCard (cardRowOut r))
    rw [mkCardRows_strip] at hperm
    simpa [Function.comp_def] using hperm
  · dsimp only
    rw [fetchGoals_dbPost db p a b c f h gs cs hwf]
    have hp := sortBy_pairwise (byMinutoId GoalRow.minuto GoalRow.id)
      (byMinutoId_total _ _) (byMinutoId_trans _ _)
      (mkGoalRows db.nextGoalId db.nextMatchId gs)
    refine hp.map goalRowOut ?_
    intro x y hxy
    have := (byMinutoId_eq_true GoalRow.minuto GoalRow.id x y).mp hxy
    show (goalRowOut x).minuto ≤ (goalRowOut y).minuto
    simp only [goalRowOut]
    omega
  · dsimp only
    rw [fetchCards_dbPost db p a b c f h gs cs hwf]
    have hp := sortBy_pairwise (byMinutoId CardRow.minuto CardRow.id)
      (byMinutoId_total _ _) (byMinutoId_trans _ _)
      (mkCardRows db.nextCardId db.nextMatchId cs)
    refine hp.map cardRowOut ?_
    intro x y hxy
    have := (byMinutoId_eq_true CardRow.minuto CardRow.id x y).mp hxy
    show (cardRowOut x).minuto ≤ (cardRowOut y).minuto
    simp only [cardRowOut]
    omega

/-- C4 counterexample: with goals given out of minute order (minute 20
before minute 10), POST then GET returns the goal entries reordered by
minute, so the returned `goles` array does not equal the input array. -/
theorem c4_counterexample :
    validateMatch payloadOutOfOrder = none ∧
    postHandler dbEmpty payloadOutOfOrder =
      ({ matchesTable := [{ id := 1, equipo_local := "A",
                            equipo_visitante := "B", goles_favor_loc := 2,
                            goles_favor_vis := 0, cancha := "X",
                            fecha := "2024-01-01", hora := "10:00",
                            created_at := 0 }],
         goals := [{ id := 1, match_id := 1, team := "local",
                     jugador := "P1", minuto := 20, penalty := false,
                     own_goal := false },
                   { id := 2, match_id := 1, team := "local",
                     jugador := "P2", minuto := 10, penalty := false,
                     own_goal := false }],
         cards := [], nextMatchId := 2, nextGoalId := 3, nextCardId := 1,
         now := 0 },
       Resp.created
         { base := { id := 1, equipo_local := "A", equipo_visitante := "B",
                     goles_favor_loc := 2, goles_favor_vis := 0,
                     cancha := "X", fecha := "2024-01-01", hora := "10:00" },
           goles := [{ id := 2, team := "local", jugador := "P2",
                       minuto := 10, penalty := false, own_goal := false },
                     { id := 1, team := "local", jugador := "P1",
                       minuto := 20, penalty := false, own_goal := false }],
           tarjetas := [] }) ∧
    ([{ id := 2, team := "local", jugador := "P2", minuto := 10,
        penalty := false, own_goal := false },
      { id := 1, team := "local", jugador := "P1", minuto := 20,
        penalty := false, own_goal := false }] : List GoalOut).map stripGoal ≠
      (jarr payloadOutOfOrder.goles).map goalView := by
  refine ⟨by decide, by decide, by decide⟩

/-- C4 witness: the amended round-trip theorem applied to the concrete
out-of-order payload on the empty database. -/
theorem c4_witness :
    ∃ db1 d, postHandler dbEmpty payloadOutOfOrder = (db1, Resp.created d) ∧
      getOneHandler db1 d.base.id = Resp.ok d ∧
      d.base.equipo_local = "A" ∧ d.base.equipo_visitante = "B" ∧
      d.base.cancha = "X" ∧ d.base.fecha = "2024-01-01" ∧
      d.base.hora = "10:00" ∧
      d.base.goles_favor_loc = 2 ∧ d.base.goles_favor_vis = 0 ∧
      List.Perm (d.goles.map stripGoal)
        ((jarr payloadOutOfOrder.goles).map goalView) ∧
      List.Perm (d.tarjetas.map stripCard)
        ((jarr payloadOutOfOrder.tarjetas).map cardView) ∧
      d.goles.Pairwise (fun x y => x.minuto ≤ y.minuto) ∧
      d.tarjetas.Pairwise (fun x y => x.minuto ≤ y.minuto) :=
  c4_post_then_get dbEmpty payloadOutOfOrder "A" "B" "X" "2024-01-01"
    "10:00" 2 0
    [{ team := JPrim.str "local", jugador := JPrim.str "P1",
       minuto := some 20, penalty := none, own_goal := none },
     { team := JPrim.str "local", jugador := JPrim.str "P2",
       minuto := some 10, penalty := none, own_goal := none }] []
    (by refine ⟨?_, ?_, ?_⟩ <;> simp [dbEmpty]) (by decide)
    rfl rfl rfl rfl rfl rfl rfl rfl rfl
